import Mathlib

/-!
Verification of the moonlight-qt input-translation and EGL presentation core.

The definitions below are shallow embeddings of the C++ sources:
  * `src/unnamed/part_005`  — SdlInputHandler (input.cpp)
  * `src/unnamed/part_004`  — GamepadState / SdlInputHandler declarations (input.h)
  * `src/app/streaming/video/ffmpeg-renderers/eglvid.cpp` — EGLRenderer
  * `src/unnamed/part_007`  — a divergent, earlier variant of EGLRenderer
  * `src/app/shaders/nv12.frag`, `src/unnamed/part_001` — NV12 fragment shader
Machine integers are modelled as `Int`/`Nat` with explicit wrapping where the
source can overflow; float constants are modelled as the exact rationals the
source literals denote.
-/

namespace Moonlight

/-- Outbound protocol calls to the streaming host (`LiSend*` in Limelight.h) plus
the local effects the input handler triggers (SDL_QUIT push, mouse-emulation-mode
notification to the Session). -/
inductive OutEvent where
  | keyboard (keyCode : Int) (down : Bool) (modifiers : Int)
  | mouseButton (press : Bool) (button : Nat)
  | mousePosition (x y refW refH : Int)
  | mouseMove (dx dy : Int)
  | scroll (ticks : Int)
  | multiController (index : Int) (mask : Int)
      (buttons lt rt lsX lsY rsX rsY : Int)
  | quit
  | notifyMouseEmulation (active : Bool)
deriving DecidableEq, Repr

/-! ### KeysDown tracking (input.cpp: handleKeyEvent lines 592-604,
raiseAllKeys lines 1336-1351, notifyFocusLost lines 1383-1396)

`m_KeysDown` is a `QSet<short>`: insertion is idempotent, removal deletes the
key. We model the set as a duplicate-free list in insertion order. -/

/-- Models `m_KeysDown.insert(keyCode)` — QSet insert: no-op when already present. -/
def insertKey (keys : List Int) (k : Int) : List Int :=
  if k ∈ keys then keys else keys ++ [k]

/-- Models `m_KeysDown.remove(keyCode)` — QSet remove. -/
def removeKey (keys : List Int) (k : Int) : List Int :=
  keys.filter (fun x => x ≠ k)

/-- The `m_KeysDown` bookkeeping of `handleKeyEvent` (input.cpp lines 592-598):
insert on SDL_PRESSED, remove on release. -/
def trackKeyEvent (keys : List Int) (pressed : Bool) (k : Int) : List Int :=
  if pressed then insertKey keys k else removeKey keys k

/-- A sequence of key-down events (no matching key-ups), applied to the set. -/
def pressAll (keys : List Int) (ks : List Int) : List Int :=
  ks.foldl insertKey keys

/-- Models `SdlInputHandler::raiseAllKeys` (input.cpp lines 1336-1351): send one
KEY_ACTION_UP with modifiers 0 for every tracked key, then clear the set. -/
def raiseAllKeys (keys : List Int) : List OutEvent × List Int :=
  (keys.map (fun k => OutEvent.keyboard k false 0), [])

/-- Models `SdlInputHandler::notifyFocusLost` (input.cpp lines 1383-1396): the capture
release does not emit protocol events; the force-release batch is exactly the
one produced by `raiseAllKeys`. -/
def notifyFocusLost (keys : List Int) : List OutEvent × List Int :=
  raiseAllKeys keys

lemma mem_insertKey (keys : List Int) (a k : Int) :
    k ∈ insertKey keys a ↔ k ∈ keys ∨ k = a := by
  unfold insertKey
  split
  · constructor
    · intro h; exact Or.inl h
    · rintro (h | rfl)
      · exact h
      · assumption
  · simp [List.mem_append]

lemma insertKey_nodup (keys : List Int) (a : Int) (h : keys.Nodup) :
    (insertKey keys a).Nodup := by
  unfold insertKey
  split
  · exact h
  · simp_all [List.nodup_append]

lemma mem_pressAll (ks : List Int) :
    ∀ (keys : List Int) (k : Int), k ∈ pressAll keys ks ↔ k ∈ keys ∨ k ∈ ks := by
  induction ks with
  | nil => simp [pressAll]
  | cons a rest ih =>
    intro keys k
    show k ∈ pressAll (insertKey keys a) rest ↔ _
    rw [ih]
    rw [mem_insertKey]
    simp only [List.mem_cons]
    tauto

lemma pressAll_nodup (ks : List Int) :
    ∀ (keys : List Int), keys.Nodup → (pressAll keys ks).Nodup := by
  induction ks with
  | nil => intro keys h; exact h
  | cons a rest ih =>
    intro keys h
    exact ih (insertKey keys a) (insertKey_nodup keys a h)

/-- C4: for every sequence of key-down events (without matching key-up events)
followed by a focus-loss notification, the force-release batch contains exactly
one key-up event for each distinct down key code — no duplicates, none missing —
and the tracked down-set is empty afterward. -/
theorem focus_loss_raises_each_down_key_once (ks : List Int) :
    ((notifyFocusLost (pressAll [] ks)).1.Nodup ∧
      ∀ k, OutEvent.keyboard k false 0 ∈ (notifyFocusLost (pressAll [] ks)).1 ↔ k ∈ ks) ∧
    (notifyFocusLost (pressAll [] ks)).2 = [] := by
  have hnd : (pressAll [] ks).Nodup := pressAll_nodup ks [] List.nodup_nil
  have hinj : Function.Injective (fun k => OutEvent.keyboard k false 0) := by
    intro a b h
    simpa using h
  refine ⟨⟨?_, ?_⟩, rfl⟩
  · exact hnd.map hinj
  · intro k
    show OutEvent.keyboard k false 0 ∈ (pressAll [] ks).map _ ↔ _
    rw [List.mem_map]
    constructor
    · rintro ⟨a, ha, heq⟩
      have : a = k := by simpa using heq
      subst this
      have := (mem_pressAll ks [] a).1 ha
      simpa using this
    · intro hk
      exact ⟨k, (mem_pressAll ks [] k).2 (Or.inr hk), rfl⟩

/-! ### Gamepad state and controller event handling (input.h `GamepadState`,
input.cpp `handleControllerButtonEvent` / `handleControllerAxisEvent` /
`handleControllerDeviceEvent`) -/

/-- Limelight.h wire-protocol button flags (external constants used by input.cpp). -/
def A_FLAG : Nat := 0x1000
def B_FLAG : Nat := 0x2000
def X_FLAG : Nat := 0x4000
def Y_FLAG : Nat := 0x8000
def UP_FLAG : Nat := 0x0001
def DOWN_FLAG : Nat := 0x0002
def LEFT_FLAG : Nat := 0x0004
def RIGHT_FLAG : Nat := 0x0008
def BACK_FLAG : Nat := 0x0010
def PLAY_FLAG : Nat := 0x0020
def LS_CLK_FLAG : Nat := 0x0040
def RS_CLK_FLAG : Nat := 0x0080
def LB_FLAG : Nat := 0x0100
def RB_FLAG : Nat := 0x0200
def SPECIAL_FLAG : Nat := 0x0400

/-- Limelight.h mouse button ids. -/
def BUTTON_LEFT : Nat := 1
def BUTTON_MIDDLE : Nat := 2
def BUTTON_RIGHT : Nat := 3
def BUTTON_X1 : Nat := 4
def BUTTON_X2 : Nat := 5

/-- SDL_GameControllerButton values (SDL_gamecontroller.h). -/
def SDL_CONTROLLER_BUTTON_A : Nat := 0
def SDL_CONTROLLER_BUTTON_B : Nat := 1
def SDL_CONTROLLER_BUTTON_X : Nat := 2
def SDL_CONTROLLER_BUTTON_Y : Nat := 3
def SDL_CONTROLLER_BUTTON_BACK : Nat := 4
def SDL_CONTROLLER_BUTTON_GUIDE : Nat := 5
def SDL_CONTROLLER_BUTTON_START : Nat := 6
def SDL_CONTROLLER_BUTTON_LEFTSTICK : Nat := 7
def SDL_CONTROLLER_BUTTON_RIGHTSTICK : Nat := 8
def SDL_CONTROLLER_BUTTON_LEFTSHOULDER : Nat := 9
def SDL_CONTROLLER_BUTTON_RIGHTSHOULDER : Nat := 10
def SDL_CONTROLLER_BUTTON_DPAD_UP : Nat := 11
def SDL_CONTROLLER_BUTTON_DPAD_DOWN : Nat := 12
def SDL_CONTROLLER_BUTTON_DPAD_LEFT : Nat := 13
def SDL_CONTROLLER_BUTTON_DPAD_RIGHT : Nat := 14

/-- SDL_GameControllerAxis values (SDL_gamecontroller.h). -/
def SDL_CONTROLLER_AXIS_LEFTX : Nat := 0
def SDL_CONTROLLER_AXIS_LEFTY : Nat := 1
def SDL_CONTROLLER_AXIS_RIGHTX : Nat := 2
def SDL_CONTROLLER_AXIS_RIGHTY : Nat := 3
def SDL_CONTROLLER_AXIS_TRIGGERLEFT : Nat := 4
def SDL_CONTROLLER_AXIS_TRIGGERRIGHT : Nat := 5

/-- Models `SdlInputHandler::k_ButtonMap` (input.cpp lines 53-59), indexed by
SDL_GameControllerButton. -/
def k_ButtonMap : List Nat :=
  [A_FLAG, B_FLAG, X_FLAG, Y_FLAG,
   BACK_FLAG, SPECIAL_FLAG, PLAY_FLAG,
   LS_CLK_FLAG, RS_CLK_FLAG,
   LB_FLAG, RB_FLAG,
   UP_FLAG, DOWN_FLAG, LEFT_FLAG, RIGHT_FLAG]

/-- Models `k_ButtonMap[event->button]` lookup (SDL always delivers `button < 15`). -/
def buttonFlag (button : Nat) : Nat := k_ButtonMap.getD button 0

/-- Models `MOUSE_EMULATION_LONG_PRESS_TIME` (input.cpp line 38). -/
def MOUSE_EMULATION_LONG_PRESS_TIME : Nat := 750

/-- The Start+Select+L1+R1 quit chord tested at input.cpp line 948:
`PLAY_FLAG | BACK_FLAG | LB_FLAG | RB_FLAG`. -/
def QUIT_COMBO : Nat := PLAY_FLAG ||| BACK_FLAG ||| LB_FLAG ||| RB_FLAG

/-- Per-slot gamepad state (input.h `struct GamepadState`), restricted to the
fields the event handlers read or write. `mouseEmulationTimer` models
`mouseEmulationTimer != 0` (a live SDL timer id); `buttons` is the 16-bit
Limelight button mask held in the C `short`. -/
structure GamepadState where
  index : Int
  buttons : Nat
  lt : Int
  rt : Int
  lsX : Int
  lsY : Int
  rsX : Int
  rsY : Int
  mouseEmulationTimer : Bool
  lastStartDownTime : Nat
deriving DecidableEq, Repr

/-- The all-zero slot produced by `SDL_zero` / `SDL_memset(state, 0, ...)`. -/
def zeroGamepadState : GamepadState :=
  { index := 0, buttons := 0, lt := 0, rt := 0, lsX := 0, lsY := 0,
    rsX := 0, rsY := 0, mouseEmulationTimer := false, lastStartDownTime := 0 }

/-- Models `SdlInputHandler::sendGamepadState` (input.cpp lines 730-742):
`LiSendMultiControllerEvent` with the slot's wire index, the global gamepad
mask, the button mask, both triggers and both stick pairs. -/
def sendGamepadState (gamepadMask : Int) (s : GamepadState) : OutEvent :=
  OutEvent.multiController s.index gamepadMask (Int.ofNat s.buttons)
    s.lt s.rt s.lsX s.lsY s.rsX s.rsY

/-- The mouse-click/scroll remapping of button presses while mouse emulation is
active (input.cpp lines 879-901). -/
def mouseEmuPressOutputs (button : Nat) : List OutEvent :=
  if button = SDL_CONTROLLER_BUTTON_A then [OutEvent.mouseButton true BUTTON_LEFT]
  else if button = SDL_CONTROLLER_BUTTON_B then [OutEvent.mouseButton true BUTTON_RIGHT]
  else if button = SDL_CONTROLLER_BUTTON_X then [OutEvent.mouseButton true BUTTON_MIDDLE]
  else if button = SDL_CONTROLLER_BUTTON_LEFTSHOULDER then [OutEvent.mouseButton true BUTTON_X1]
  else if button = SDL_CONTROLLER_BUTTON_RIGHTSHOULDER then [OutEvent.mouseButton true BUTTON_X2]
  else if button = SDL_CONTROLLER_BUTTON_DPAD_UP then [OutEvent.scroll 1]
  else if button = SDL_CONTROLLER_BUTTON_DPAD_DOWN then [OutEvent.scroll (-1)]
  else []

/-- The mouse-click remapping of button releases while mouse emulation is
active (input.cpp lines 928-944). -/
def mouseEmuReleaseOutputs (button : Nat) : List OutEvent :=
  if button = SDL_CONTROLLER_BUTTON_A then [OutEvent.mouseButton false BUTTON_LEFT]
  else if button = SDL_CONTROLLER_BUTTON_B then [OutEvent.mouseButton false BUTTON_RIGHT]
  else if button = SDL_CONTROLLER_BUTTON_X then [OutEvent.mouseButton false BUTTON_MIDDLE]
  else if button = SDL_CONTROLLER_BUTTON_LEFTSHOULDER then [OutEvent.mouseButton false BUTTON_X1]
  else if button = SDL_CONTROLLER_BUTTON_RIGHTSHOULDER then [OutEvent.mouseButton false BUTTON_X2]
  else []

/-- The press/release half of `SdlInputHandler::handleControllerButtonEvent`
(input.cpp lines 873-945): update the button mask, record Start-down time,
toggle mouse emulation on a long Start release, or remap clicks while mouse
emulation is active. `now` is `SDL_GetTicks()` at handling time. -/
def buttonEventPhase1 (gamepadMouse : Bool) (gamepadMask : Int) (s : GamepadState)
    (button : Nat) (pressed : Bool) (now : Nat) : GamepadState × List OutEvent :=
  if pressed then
    let s1 := { s with buttons := s.buttons ||| buttonFlag button }
    if button = SDL_CONTROLLER_BUTTON_START then
      ({ s1 with lastStartDownTime := now }, [])
    else if s1.mouseEmulationTimer then
      (s1, mouseEmuPressOutputs button)
    else
      (s1, [])
  else
    let s1 := { s with buttons := s.buttons &&& (0xFFFF ^^^ buttonFlag button) }
    if button = SDL_CONTROLLER_BUTTON_START then
      if now - s1.lastStartDownTime > MOUSE_EMULATION_LONG_PRESS_TIME then
        if s1.mouseEmulationTimer then
          ({ s1 with mouseEmulationTimer := false },
           [OutEvent.notifyMouseEmulation false])
        else if gamepadMouse then
          ({ s1 with mouseEmulationTimer := true },
           [sendGamepadState gamepadMask s1, OutEvent.notifyMouseEmulation true])
        else
          (s1, [])
      else
        (s1, [])
    else if s1.mouseEmulationTimer then
      (s1, mouseEmuReleaseOutputs button)
    else
      (s1, [])

/-- The tail of `SdlInputHandler::handleControllerButtonEvent` (input.cpp lines
947-967): the Start+Select+L1+R1 chord pushes SDL_QUIT and sends a fully zeroed
controller event and returns; otherwise the state is forwarded to the host
unless mouse emulation is active. -/
def quitComboCheck (gamepadMask : Int) (r : GamepadState × List OutEvent) :
    GamepadState × List OutEvent :=
  if r.1.buttons = QUIT_COMBO then
    (r.1, r.2 ++ [OutEvent.quit,
                  OutEvent.multiController r.1.index gamepadMask 0 0 0 0 0 0 0])
  else if r.1.mouseEmulationTimer = false then
    (r.1, r.2 ++ [sendGamepadState gamepadMask r.1])
  else
    (r.1, r.2)

/-- Models `SdlInputHandler::handleControllerButtonEvent` (input.cpp lines 866-968):
the press/release handling followed by the quit-chord check / state forward. -/
def handleControllerButtonEvent (gamepadMouse : Bool) (gamepadMask : Int)
    (s : GamepadState) (button : Nat) (pressed : Bool) (now : Nat) :
    GamepadState × List OutEvent :=
  quitComboCheck gamepadMask
    (buttonEventPhase1 gamepadMouse gamepadMask s button pressed now)

lemma quitComboCheck_fst (gamepadMask : Int) (r : GamepadState × List OutEvent) :
    (quitComboCheck gamepadMask r).1 = r.1 := by
  unfold quitComboCheck
  split
  · rfl
  · split <;> rfl

/-- Wrap of the C `int`→`short` store: reduce modulo 2^16 into [-32768, 32767]. -/
def int16wrap (n : Int) : Int := (n + 32768) % 65536 - 32768

/-- Truncation of `(unsigned long)(event->value) * 255UL / 32767` to
`unsigned char` (input.cpp lines 833, 836); `UL` arithmetic is modulo 2^64. -/
def triggerScale (v : Int) : Int :=
  Int.ofNat ((((v % (2 ^ 64)).toNat * 255) % (2 ^ 64)) / 32767 % 256)

/-- The per-axis update of `SdlInputHandler::handleControllerAxisEvent`
(input.cpp lines 813-843). Y sticks store `-qMax(value, (short)-32767)`; the
negation is evaluated in `int` and stored back into a `short`. -/
def handleControllerAxisEvent (s : GamepadState) (axis : Nat) (v : Int) :
    GamepadState :=
  if axis = SDL_CONTROLLER_AXIS_LEFTX then { s with lsX := v }
  else if axis = SDL_CONTROLLER_AXIS_LEFTY then
    { s with lsY := int16wrap (-(max v (-32767))) }
  else if axis = SDL_CONTROLLER_AXIS_RIGHTX then { s with rsX := v }
  else if axis = SDL_CONTROLLER_AXIS_RIGHTY then
    { s with rsY := int16wrap (-(max v (-32767))) }
  else if axis = SDL_CONTROLLER_AXIS_TRIGGERLEFT then { s with lt := triggerScale v }
  else if axis = SDL_CONTROLLER_AXIS_TRIGGERRIGHT then { s with rt := triggerScale v }
  else s

/-! ### Gamepad slot table (input.cpp `handleControllerDeviceEvent`,
lines 970-1133, and `findStateForGamepad`, lines 713-728) -/

/-- The slot-table view of one `GamepadState` entry: whether
`controller != NULL`, the SDL joystick instance id and the wire player index.
An empty slot is all zeroes (`SDL_zero` at startup, `SDL_memset` on removal). -/
structure GamepadSlot where
  occupied : Bool
  jsId : Nat
  index : Nat
deriving DecidableEq, Repr

def emptySlot : GamepadSlot := { occupied := false, jsId := 0, index := 0 }

/-- Models `MAX_GAMEPADS` (input.h). -/
def MAX_GAMEPADS : Nat := 4

/-- The zeroed 4-slot `m_GamepadState` table. -/
def emptyTable : List GamepadSlot := [emptySlot, emptySlot, emptySlot, emptySlot]

/-- The slot-search loop of the SDL_CONTROLLERDEVICEADDED path (input.cpp lines
995-1003): first index whose `controller` is NULL. -/
def firstFreeSlot : List GamepadSlot → Option Nat
  | [] => none
  | s :: rest =>
    if s.occupied = false then some 0
    else (firstFreeSlot rest).map (fun i => i + 1)

/-- SDL_CONTROLLERDEVICEADDED (input.cpp lines 974-1094): claim the first free
slot, or reject the device when all `MAX_GAMEPADS` slots are taken. In
multi-controller mode the wire index is the slot number; otherwise it is 0. -/
def attachGamepad (multi : Bool) (t : List GamepadSlot) (jsId : Nat) :
    Option (Nat × List GamepadSlot) :=
  match firstFreeSlot t with
  | none => none
  | some i =>
    some (i, t.set i { occupied := true, jsId := jsId,
                       index := if multi then i else 0 })

/-- Models `SdlInputHandler::findStateForGamepad` (input.cpp lines 713-728): first slot
whose `jsId` equals the event's joystick instance id. -/
def findSlotIdx : List GamepadSlot → Nat → Option Nat
  | [], _ => none
  | s :: rest, id =>
    if s.jsId = id then some 0
    else (findSlotIdx rest id).map (fun i => i + 1)

/-- SDL_CONTROLLERDEVICEREMOVED (input.cpp lines 1096-1132): locate the slot via
`findStateForGamepad` and zero it (`SDL_memset(state, 0, sizeof(*state))`). -/
def detachGamepad (t : List GamepadSlot) (id : Nat) : List GamepadSlot :=
  match findSlotIdx t id with
  | none => t
  | some i => t.set i emptySlot

/-- A gamepad attach/detach notification (`SDL_ControllerDeviceEvent`). -/
inductive GamepadDeviceEvent where
  | added (jsId : Nat)
  | removed (jsId : Nat)
deriving DecidableEq, Repr

/-- One `handleControllerDeviceEvent` dispatch, table effect only. -/
def stepDevice (multi : Bool) (t : List GamepadSlot) :
    GamepadDeviceEvent → List GamepadSlot
  | .added id =>
    match attachGamepad multi t id with
    | none => t
    | some r => r.2
  | .removed id => detachGamepad t id

/-- A sequence of attach/detach events applied to the table. -/
def runDevice (multi : Bool) (t : List GamepadSlot)
    (es : List GamepadDeviceEvent) : List GamepadSlot :=
  es.foldl (stepDevice multi) t

lemma firstFreeSlot_spec (t : List GamepadSlot) (i : Nat)
    (h : firstFreeSlot t = some i) :
    i < t.length ∧ (t.getD i emptySlot).occupied = false ∧
      ∀ j, j < i → (t.getD j emptySlot).occupied = true := by
  induction t generalizing i with
  | nil => simp [firstFreeSlot] at h
  | cons s rest ih =>
    by_cases hs : s.occupied = false
    · simp [firstFreeSlot, hs] at h
      subst h
      refine ⟨Nat.succ_pos _, by simpa using hs, ?_⟩
      intro j hj; omega
    · simp [firstFreeSlot, hs] at h
      obtain ⟨i', hi', rfl⟩ := h
      obtain ⟨hlen, hfree, hprev⟩ := ih i' hi'
      refine ⟨by simpa using Nat.succ_lt_succ hlen, by simpa using hfree, ?_⟩
      intro j hj
      match j with
      | 0 => simpa using (by simpa using hs : s.occupied = true)
      | j' + 1 =>
        have : j' < i' := by omega
        simpa using hprev j' this

lemma firstFreeSlot_none (t : List GamepadSlot)
    (h : ∀ j, j < t.length → (t.getD j emptySlot).occupied = true) :
    firstFreeSlot t = none := by
  induction t with
  | nil => rfl
  | cons s rest ih =>
    have hs : s.occupied = true := by simpa using h 0 (Nat.succ_pos _)
    have hrest : ∀ j, j < rest.length → (rest.getD j emptySlot).occupied = true := by
      intro j hj
      simpa using h (j + 1) (by simpa using Nat.succ_lt_succ hj)
    simp [firstFreeSlot, hs, ih hrest]

lemma findSlotIdx_spec (t : List GamepadSlot) (id i : Nat)
    (h : findSlotIdx t id = some i) :
    i < t.length ∧ (t.getD i emptySlot).jsId = id := by
  induction t generalizing i with
  | nil => simp [findSlotIdx] at h
  | cons s rest ih =>
    by_cases hs : s.jsId = id
    · simp [findSlotIdx, hs] at h
      subst h
      exact ⟨Nat.succ_pos _, by simpa using hs⟩
    · simp [findSlotIdx, hs] at h
      obtain ⟨i', hi', rfl⟩ := h
      obtain ⟨hlen, hid⟩ := ih i' hi'
      exact ⟨by simpa using Nat.succ_lt_succ hlen, by simpa using hid⟩

lemma getD_set_self {α : Type} (l : List α) (i : Nat) (a d : α)
    (h : i < l.length) : (l.set i a).getD i d = a := by
  induction l generalizing i with
  | nil => simp at h
  | cons x rest ih =>
    match i with
    | 0 => rfl
    | j + 1 =>
      have : j < rest.length := by simpa using h
      simpa using ih j this

lemma getD_set_ne {α : Type} (l : List α) (i j : Nat) (a d : α)
    (h : i ≠ j) : (l.set i a).getD j d = l.getD j d := by
  induction l generalizing i j with
  | nil => simp
  | cons x rest ih =>
    match i, j with
    | 0, 0 => exact absurd rfl h
    | 0, k + 1 => rfl
    | m + 1, 0 => rfl
    | m + 1, k + 1 =>
      have : m ≠ k := by omega
      simpa using ih m k this

/-- C3: starting from the empty table, each attach takes the lowest-indexed
free slot among 0..3 (four attaches fill slots 0,1,2,3 in arrival order and
after detaching the slot-1 device the next attach lands in slot 1), a slot is
never modified while its controller stays attached, and a fifth concurrent
attach is rejected. -/
theorem gamepad_slot_assignment :
    (∀ (multi : Bool) (t : List GamepadSlot) (id i : Nat) (t' : List GamepadSlot),
      attachGamepad multi t id = some (i, t') →
      (t.getD i emptySlot).occupied = false ∧
      (∀ j, j < i → (t.getD j emptySlot).occupied = true) ∧
      t'.getD i emptySlot =
        { occupied := true, jsId := id, index := if multi then i else 0 }) ∧
    (∀ (multi : Bool) (t : List GamepadSlot) (id : Nat),
      (∀ j, j < t.length → (t.getD j emptySlot).occupied = true) →
      attachGamepad multi t id = none) ∧
    (∀ (multi : Bool) (t : List GamepadSlot) (i : Nat) (e : GamepadDeviceEvent),
      (t.getD i emptySlot).occupied = true →
      (∀ id, e = GamepadDeviceEvent.removed id → id ≠ (t.getD i emptySlot).jsId) →
      (stepDevice multi t e).getD i emptySlot = t.getD i emptySlot) ∧
    (runDevice true emptyTable
        [.added 10, .added 11, .added 12, .added 13] =
      [⟨true, 10, 0⟩, ⟨true, 11, 1⟩, ⟨true, 12, 2⟩, ⟨true, 13, 3⟩] ∧
     attachGamepad true
        (runDevice true emptyTable [.added 10, .added 11, .added 12, .added 13])
        14 = none ∧
     runDevice true emptyTable
        [.added 10, .added 11, .added 12, .added 13, .removed 11, .added 14] =
      [⟨true, 10, 0⟩, ⟨true, 14, 1⟩, ⟨true, 12, 2⟩, ⟨true, 13, 3⟩]) := by
  refine ⟨?_, ?_, ?_, by decide, by decide, by decide⟩
  · intro multi t id i t' h
    unfold attachGamepad at h
    cases hf : firstFreeSlot t with
    | none => rw [hf] at h; simp at h
    | some k =>
      rw [hf] at h
      simp at h
      obtain ⟨rfl, rfl⟩ := h
      obtain ⟨hlen, hfree, hprev⟩ := firstFreeSlot_spec t _ hf
      exact ⟨hfree, hprev, getD_set_self t _ _ _ hlen⟩
  · intro multi t id hall
    unfold attachGamepad
    rw [firstFreeSlot_none t hall]
  · intro multi t i e hocc hnotme
    cases e with
    | added id =>
      show (match attachGamepad multi t id with
            | none => t
            | some r => r.2).getD i emptySlot = _
      cases hf : firstFreeSlot t with
      | none => simp [attachGamepad, hf]
      | some k =>
        simp only [attachGamepad, hf]
        obtain ⟨hlen, hfree, _⟩ := firstFreeSlot_spec t k hf
        have hne : k ≠ i := by
          intro hk
          rw [hk] at hfree
          rw [hfree] at hocc
          exact Bool.false_ne_true hocc
        exact getD_set_ne t k i _ _ hne
    | removed id =>
      show (detachGamepad t id).getD i emptySlot = _
      unfold detachGamepad
      cases hf : findSlotIdx t id with
      | none => rfl
      | some k =>
        obtain ⟨hlen, hid⟩ := findSlotIdx_spec t id k hf
        have hne : k ≠ i := by
          intro hk
          rw [hk] at hid
          exact hnotme id rfl hid.symm
        exact getD_set_ne t k i _ _ hne

/-- Witness for `gamepad_slot_assignment` at concrete inputs: the first attach
on the empty table takes slot 0, and an attach does not disturb an occupied
slot. -/
theorem gamepad_slot_assignment_witness :
    (emptyTable.getD 0 emptySlot).occupied = false ∧
    (stepDevice true [⟨true, 7, 0⟩, emptySlot, emptySlot, emptySlot]
        (GamepadDeviceEvent.added 9)).getD 0 emptySlot = ⟨true, 7, 0⟩ := by
  constructor
  · exact (gamepad_slot_assignment.1 true emptyTable 7 0
      [⟨true, 7, 0⟩, emptySlot, emptySlot, emptySlot] (by decide)).1
  · exact gamepad_slot_assignment.2.2.1 true
      [⟨true, 7, 0⟩, emptySlot, emptySlot, emptySlot] 0
      (GamepadDeviceEvent.added 9) (by decide) (fun id h => by simp at h)

lemma cleared_play_ne_quit_combo (x : Nat) :
    x &&& (0xFFFF ^^^ PLAY_FLAG) ≠ QUIT_COMBO := by
  intro h
  have h5 := congrArg (fun n => n.testBit 5) h
  simp only [Nat.testBit_and] at h5
  rw [show Nat.testBit (0xFFFF ^^^ PLAY_FLAG) 5 = false from by decide] at h5
  rw [show Nat.testBit QUIT_COMBO 5 = true from by decide] at h5
  simp at h5

lemma mouseEmuPressOutputs_no_state (button : Nat) :
    ∀ ix mk b l r a b' c d,
      OutEvent.multiController ix mk b l r a b' c d ∈ mouseEmuPressOutputs button →
      False := by
  intro ix mk b l r a b' c d hmem
  unfold mouseEmuPressOutputs at hmem
  repeat' split at hmem
  all_goals simp_all

lemma mouseEmuReleaseOutputs_no_state (button : Nat) :
    ∀ ix mk b l r a b' c d,
      OutEvent.multiController ix mk b l r a b' c d ∈ mouseEmuReleaseOutputs button →
      False := by
  intro ix mk b l r a b' c d hmem
  unfold mouseEmuReleaseOutputs at hmem
  repeat' split at hmem
  all_goals simp_all

lemma phase1_no_state_event_under_combo
    (gm : Bool) (mask : Int) (s : GamepadState) (button : Nat) (pressed : Bool)
    (now : Nat)
    (h : (buttonEventPhase1 gm mask s button pressed now).1.buttons = QUIT_COMBO) :
    ∀ ix mk b l r a b' c d,
      OutEvent.multiController ix mk b l r a b' c d ∈
        (buttonEventPhase1 gm mask s button pressed now).2 → False := by
  intro ix mk b l r a b' c d hmem
  unfold buttonEventPhase1 at h hmem
  by_cases hp : pressed = true <;>
    by_cases hst : button = SDL_CONTROLLER_BUTTON_START <;>
    by_cases hlp : now - s.lastStartDownTime > MOUSE_EMULATION_LONG_PRESS_TIME <;>
    by_cases hemu : s.mouseEmulationTimer = true <;>
    by_cases hgm : gm = true <;>
    simp only [hp, hst, hlp, hemu, hgm, eq_self_iff_true, if_true, if_false,
      ite_true, ite_false, Bool.false_eq_true] at h hmem <;>
    first
      | exact mouseEmuPressOutputs_no_state button ix mk b l r a b' c d hmem
      | exact mouseEmuReleaseOutputs_no_state button ix mk b l r a b' c d hmem
      | exact absurd h (cleared_play_ne_quit_combo s.buttons)
      | simp_all

/-- C2: whenever a controller button event leaves a slot's button mask exactly
equal to Start+Select+L1+R1, the handler pushes a quit request and a fully
zeroed controller state event (independent of the slot's axis values), and no
non-zero controller state event is forwarded for that event. -/
theorem quit_combo_zeroes_and_quits (gm : Bool) (mask : Int) (s : GamepadState)
    (button : Nat) (pressed : Bool) (now : Nat)
    (h : (handleControllerButtonEvent gm mask s button pressed now).1.buttons =
      QUIT_COMBO) :
    OutEvent.quit ∈ (handleControllerButtonEvent gm mask s button pressed now).2 ∧
    OutEvent.multiController
        (handleControllerButtonEvent gm mask s button pressed now).1.index mask
        0 0 0 0 0 0 0 ∈
      (handleControllerButtonEvent gm mask s button pressed now).2 ∧
    ∀ ix mk b l r a b' c d,
      OutEvent.multiController ix mk b l r a b' c d ∈
        (handleControllerButtonEvent gm mask s button pressed now).2 →
      b = 0 ∧ l = 0 ∧ r = 0 ∧ a = 0 ∧ b' = 0 ∧ c = 0 ∧ d = 0 := by
  have hr : (buttonEventPhase1 gm mask s button pressed now).1.buttons = QUIT_COMBO := by
    unfold handleControllerButtonEvent at h
    rw [quitComboCheck_fst] at h
    exact h
  unfold handleControllerButtonEvent quitComboCheck
  rw [if_pos hr]
  refine ⟨by simp, by simp, ?_⟩
  intro ix mk b l r a b' c d hmem
  rw [List.mem_append] at hmem
  cases hmem with
  | inl hin =>
    exact absurd hin
      (fun hin => phase1_no_state_event_under_combo gm mask s button pressed now hr
        ix mk b l r a b' c d hin)
  | inr hin =>
    simp at hin
    obtain ⟨_, _, rfl, rfl, rfl, rfl, rfl, rfl, rfl⟩ := hin
    exact ⟨rfl, rfl, rfl, rfl, rfl, rfl, rfl⟩

/-- Witness for `quit_combo_zeroes_and_quits`: pressing Start with
Select+L1+R1 already down completes the chord and pushes the quit event. -/
theorem quit_combo_zeroes_and_quits_witness :
    OutEvent.quit ∈
      (handleControllerButtonEvent true 1
        { zeroGamepadState with buttons := 0x310, lsX := 500 }
        SDL_CONTROLLER_BUTTON_START true 0).2 :=
  (quit_combo_zeroes_and_quits true 1
    { zeroGamepadState with buttons := 0x310, lsX := 500 }
    SDL_CONTROLLER_BUTTON_START true 0 (by decide)).1

lemma quitComboCheck_snd_mono (gamepadMask : Int)
    (r : GamepadState × List OutEvent) (e : OutEvent) (hmem : e ∈ r.2) :
    e ∈ (quitComboCheck gamepadMask r).2 := by
  unfold quitComboCheck
  split
  · simp [hmem]
  · split
    · simp [hmem]
    · exact hmem

/-- C7 (amended): per slot, a Start release moves the mouse-emulation machine
from Inactive to Active exactly when Start was held past
`MOUSE_EMULATION_LONG_PRESS_TIME` and gamepad-as-mouse is enabled, and from
Active to Inactive exactly when Start was held past the same threshold (a short
Start release while Active does NOT leave Active); each transition emits the
mode notification; no other button event changes the mode. -/
theorem mouse_emulation_long_press_transitions (gm : Bool) (mask : Int)
    (s : GamepadState) (now : Nat) :
    (s.mouseEmulationTimer = false →
      (((handleControllerButtonEvent gm mask s SDL_CONTROLLER_BUTTON_START false
          now).1.mouseEmulationTimer = true) ↔
        (now - s.lastStartDownTime > MOUSE_EMULATION_LONG_PRESS_TIME ∧ gm = true))) ∧
    (s.mouseEmulationTimer = false →
      now - s.lastStartDownTime > MOUSE_EMULATION_LONG_PRESS_TIME → gm = true →
      OutEvent.notifyMouseEmulation true ∈
        (handleControllerButtonEvent gm mask s SDL_CONTROLLER_BUTTON_START false
          now).2) ∧
    (s.mouseEmulationTimer = true →
      (((handleControllerButtonEvent gm mask s SDL_CONTROLLER_BUTTON_START false
          now).1.mouseEmulationTimer = false) ↔
        now - s.lastStartDownTime > MOUSE_EMULATION_LONG_PRESS_TIME)) ∧
    (s.mouseEmulationTimer = true →
      now - s.lastStartDownTime > MOUSE_EMULATION_LONG_PRESS_TIME →
      OutEvent.notifyMouseEmulation false ∈
        (handleControllerButtonEvent gm mask s SDL_CONTROLLER_BUTTON_START false
          now).2) ∧
    (∀ button pressed,
      (button ≠ SDL_CONTROLLER_BUTTON_START ∨ pressed = true) →
      (handleControllerButtonEvent gm mask s button pressed now).1.mouseEmulationTimer =
        s.mouseEmulationTimer) := by
  have hfst : ∀ button pressed,
      (handleControllerButtonEvent gm mask s button pressed now).1 =
        (buttonEventPhase1 gm mask s button pressed now).1 := by
    intro button pressed
    unfold handleControllerButtonEvent
    exact quitComboCheck_fst mask _
  refine ⟨?_, ?_, ?_, ?_, ?_⟩
  · intro hoff
    rw [hfst]
    unfold buttonEventPhase1
    by_cases hlp : now - s.lastStartDownTime > MOUSE_EMULATION_LONG_PRESS_TIME <;>
      by_cases hgm : gm = true <;>
      simp [hlp, hgm, hoff]
  · intro hoff hlp hgm
    unfold handleControllerButtonEvent
    apply quitComboCheck_snd_mono
    unfold buttonEventPhase1
    simp [hlp, hgm, hoff]
  · intro hon
    rw [hfst]
    unfold buttonEventPhase1
    by_cases hlp : now - s.lastStartDownTime > MOUSE_EMULATION_LONG_PRESS_TIME <;>
      simp [hlp, hon]
  · intro hon hlp
    unfold handleControllerButtonEvent
    apply quitComboCheck_snd_mono
    unfold buttonEventPhase1
    simp [hlp, hon]
  · intro button pressed hnot
    rw [hfst]
    unfold buttonEventPhase1
    rcases hnot with hne | hpr
    · by_cases hp : pressed = true <;>
        by_cases hemu : s.mouseEmulationTimer = true <;>
        simp [hp, hne, hemu]
    · by_cases hst : button = SDL_CONTROLLER_BUTTON_START <;>
        by_cases hemu : s.mouseEmulationTimer = true <;>
        simp [hpr, hst, hemu]

/-- The gamepad state reached (with gamepad-as-mouse enabled) by: Start down at
t=0, Start up at t=1000 (long press, activates mouse emulation), Start down
again at t=2000. -/
def emuActiveStartHeldState : GamepadState :=
  (handleControllerButtonEvent true 1
    (handleControllerButtonEvent true 1
      (handleControllerButtonEvent true 1 zeroGamepadState
        SDL_CONTROLLER_BUTTON_START true 0).1
      SDL_CONTROLLER_BUTTON_START false 1000).1
    SDL_CONTROLLER_BUTTON_START true 2000).1

/-- C7 counterexample: with mouse emulation Active, a short Start press+release
(held 100 ms < 750 ms) leaves the machine Active and emits no event at all — the
claim's "transitions back to Inactive when Start is released while Active" fails
at this input, and no mode-change notification is emitted for that release. -/
theorem mouse_emulation_short_release_counterexample :
    emuActiveStartHeldState.mouseEmulationTimer = true ∧
    (handleControllerButtonEvent true 1 emuActiveStartHeldState
      SDL_CONTROLLER_BUTTON_START false 2100).1.mouseEmulationTimer = true ∧
    (handleControllerButtonEvent true 1 emuActiveStartHeldState
      SDL_CONTROLLER_BUTTON_START false 2100).2 = [] := by
  decide

/-- Witness for `mouse_emulation_long_press_transitions`: a 1000 ms Start hold
from the Inactive zero state activates mouse emulation. -/
theorem mouse_emulation_long_press_transitions_witness :
    OutEvent.notifyMouseEmulation true ∈
      (handleControllerButtonEvent true 1 zeroGamepadState
        SDL_CONTROLLER_BUTTON_START false 1000).2 :=
  (mouse_emulation_long_press_transitions true 1 zeroGamepadState 1000).2.1
    rfl (by decide) rfl

/-- C10: for every left- or right-stick Y-axis event with raw value in
[-32768, 32767], the stored stick value is `-max(v, -32767)`, which always lies
in [-32767, 32767]: negating -32768 never wraps back to a negative value. -/
theorem stick_y_axis_no_overflow (s : GamepadState) (v : Int)
    (_hlo : -32768 ≤ v) (hhi : v ≤ 32767) :
    (handleControllerAxisEvent s SDL_CONTROLLER_AXIS_LEFTY v).lsY =
      -(max v (-32767)) ∧
    (handleControllerAxisEvent s SDL_CONTROLLER_AXIS_RIGHTY v).rsY =
      -(max v (-32767)) ∧
    -32767 ≤ -(max v (-32767)) ∧ -(max v (-32767)) ≤ 32767 := by
  set m := max v (-32767) with hm
  have h1 : -32767 ≤ m := le_max_right _ _
  have h2 : m ≤ 32767 := max_le hhi (by norm_num)
  have hw : int16wrap (-m) = -m := by
    unfold int16wrap
    omega
  refine ⟨?_, ?_, by omega, by omega⟩
  · simp only [handleControllerAxisEvent, SDL_CONTROLLER_AXIS_LEFTX,
      SDL_CONTROLLER_AXIS_LEFTY]
    norm_num
    rw [← hm, hw]
  · simp only [handleControllerAxisEvent, SDL_CONTROLLER_AXIS_LEFTX,
      SDL_CONTROLLER_AXIS_LEFTY, SDL_CONTROLLER_AXIS_RIGHTX,
      SDL_CONTROLLER_AXIS_RIGHTY]
    norm_num
    rw [← hm, hw]

/-- Witness for `stick_y_axis_no_overflow` at the most negative raw value
-32768: the stored value is 32767. -/
theorem stick_y_axis_no_overflow_witness :
    (handleControllerAxisEvent zeroGamepadState SDL_CONTROLLER_AXIS_LEFTY
        (-32768)).lsY = -(max (-32768) (-32767) : Int) ∧
    (handleControllerAxisEvent zeroGamepadState SDL_CONTROLLER_AXIS_RIGHTY
        (-32768)).rsY = -(max (-32768) (-32767) : Int) ∧
    -32767 ≤ -(max (-32768) (-32767) : Int) ∧
    -(max (-32768) (-32767) : Int) ≤ 32767 :=
  stick_y_axis_no_overflow zeroGamepadState (-32768) (by norm_num) (by norm_num)

/-! ### EGL presentation renderer (eglvid.cpp, and the divergent variant in
src/unnamed/part_007) -/

/-- One entry of `VADRMPRIMESurfaceDescriptor::objects`: a dma-buf file
descriptor plus its DRM format modifier. -/
structure DmaObject where
  fd : Int
  drmFormatModifier : Nat
deriving DecidableEq, Repr

def defaultDmaObject : DmaObject := { fd := -1, drmFormatModifier := 0 }

/-- One entry of `VADRMPRIMESurfaceDescriptor::layers` (separate-layers export:
one layer per plane, single-object layers as indexed by `object_index[0]`). -/
structure DmaLayer where
  drmFormat : Nat
  objectIndex0 : Nat
  offset0 : Nat
  pitch0 : Nat
deriving DecidableEq, Repr

/-- The result of `vaExportSurfaceHandle(..., VA_EXPORT_SURFACE_SEPARATE_LAYERS,
&va_desc)` in `hwmap` (eglvid.cpp lines 298-325 / part_007 lines 157-183). -/
structure VADRMPRIMESurfaceDescriptor where
  width : Nat
  height : Nat
  objects : List DmaObject
  layers : List DmaLayer
deriving DecidableEq, Repr

/-- Externally observable resource operations of one `renderFrame` call. -/
inductive RenderOp where
  | exportSurface
  | importPlane (fd : Int) (texture : Nat)
  | closeFd (fd : Int)
  | draw
  | swapWindow
deriving DecidableEq, Repr

/-- Models `EGLRenderer::renderFrame` (eglvid.cpp lines 327-465), resource-operation
trace. Non-hardware frames return before exporting (lines 454-459); a shader
compile failure during specialization returns before `hwmap` (lines 343-344).
Otherwise the frame is exported, each layer is imported into its texture
(lines 400-448), and every descriptor object fd is closed (lines 450-452)
before the draw and buffer swap. -/
def eglRenderFrameOps (specialized shaderOk hwFrame : Bool)
    (d : VADRMPRIMESurfaceDescriptor) : List RenderOp :=
  if hwFrame = false then []
  else if specialized = false ∧ shaderOk = false then []
  else
    RenderOp.exportSurface ::
      ((d.layers.enum.map fun p =>
          RenderOp.importPlane ((d.objects.getD p.2.objectIndex0 defaultDmaObject).fd) p.1)
        ++ (d.objects.map fun o => RenderOp.closeFd o.fd)
        ++ [RenderOp.draw, RenderOp.swapWindow])

/-- Models `EGLRenderer::renderFrame` of the divergent variant (src/unnamed/part_007,
lines 185-267): exports and imports the planes but never closes the descriptor
object fds, and only swaps the window. -/
def part007RenderFrameOps (hwFrame : Bool) (d : VADRMPRIMESurfaceDescriptor) :
    List RenderOp :=
  if hwFrame = false then []
  else
    RenderOp.exportSurface ::
      ((d.layers.enum.map fun p =>
          RenderOp.importPlane ((d.objects.getD p.2.objectIndex0 defaultDmaObject).fd) p.1)
        ++ [RenderOp.swapWindow])

/-- The fds delivered by the export call: one per descriptor object. -/
def exportedFds (d : VADRMPRIMESurfaceDescriptor) : List Int :=
  d.objects.map fun o => o.fd

/-- The fds a trace closes. -/
def closedFds (ops : List RenderOp) : List Int :=
  ops.filterMap fun op =>
    match op with
    | RenderOp.closeFd fd => some fd
    | _ => none

/-- Exported fds that remain open after the trace. -/
def openFdsAfter (d : VADRMPRIMESurfaceDescriptor) (ops : List RenderOp) :
    List Int :=
  (exportedFds d).filter fun fd => decide (fd ∉ closedFds ops)

/-- A concrete NV12 export: one dma-buf object (fd 5) shared by the luma and
chroma layers. -/
def part007SampleDescriptor : VADRMPRIMESurfaceDescriptor :=
  { width := 1280, height := 720,
    objects := [{ fd := 5, drmFormatModifier := 0 }],
    layers := [{ drmFormat := 1, objectIndex0 := 0, offset0 := 0, pitch0 := 1280 },
               { drmFormat := 2, objectIndex0 := 0, offset0 := 921600, pitch0 := 1280 }] }

/-- C1: whenever `EGLRenderer::renderFrame` (eglvid.cpp) reaches the surface
export, every OS-level fd of the exported plane descriptors is closed before
the call returns — no exported fd stays open. The divergent part_007 variant
violates this: on the sample export it closes nothing and fd 5 stays open. -/
theorem renderFrame_closes_exported_fds (specialized shaderOk hw : Bool)
    (d : VADRMPRIMESurfaceDescriptor)
    (hexp : RenderOp.exportSurface ∈ eglRenderFrameOps specialized shaderOk hw d) :
    (∀ fd, fd ∈ exportedFds d →
      RenderOp.closeFd fd ∈ eglRenderFrameOps specialized shaderOk hw d) ∧
    openFdsAfter d (eglRenderFrameOps specialized shaderOk hw d) = [] ∧
    RenderOp.exportSurface ∈ part007RenderFrameOps true part007SampleDescriptor ∧
    openFdsAfter part007SampleDescriptor
      (part007RenderFrameOps true part007SampleDescriptor) = [5] := by
  have hclose : ∀ fd, fd ∈ exportedFds d →
      RenderOp.closeFd fd ∈ eglRenderFrameOps specialized shaderOk hw d := by
    intro fd hfd
    unfold eglRenderFrameOps at hexp ⊢
    by_cases hhw : hw = false
    · rw [if_pos hhw] at hexp
      exact absurd hexp (List.not_mem_nil _)
    · by_cases hns : specialized = false ∧ shaderOk = false
      · rw [if_neg hhw, if_pos hns] at hexp
        exact absurd hexp (List.not_mem_nil _)
      · rw [if_neg hhw, if_neg hns]
        unfold exportedFds at hfd
        obtain ⟨o, ho, rfl⟩ := List.mem_map.1 hfd
        have hm : RenderOp.closeFd o.fd ∈
            List.map (fun o => RenderOp.closeFd o.fd) d.objects :=
          List.mem_map.2 ⟨o, ho, rfl⟩
        simp [hm]
  refine ⟨hclose, ?_, by decide, by decide⟩
  unfold openFdsAfter
  rw [List.filter_eq_nil_iff]
  intro fd hfd
  have hc := hclose fd hfd
  have : fd ∈ closedFds (eglRenderFrameOps specialized shaderOk hw d) :=
    List.mem_filterMap.2 ⟨RenderOp.closeFd fd, hc, rfl⟩
  simp [this]

/-- Witness for `renderFrame_closes_exported_fds`: on the sample descriptor the
eglvid.cpp renderFrame closes fd 5. -/
theorem renderFrame_closes_exported_fds_witness :
    RenderOp.closeFd 5 ∈ eglRenderFrameOps true true true part007SampleDescriptor :=
  (renderFrame_closes_exported_fds true true true part007SampleDescriptor
    (by decide)).1 5 (by decide)

/-! ### Colorspace conversion and deferred specialization (eglvid.cpp lines
327-465, nv12.frag / part_001 fragment shader) -/

/-- A 3-component offset vector, components as exact rationals. -/
structure Vec3 where
  x : ℚ
  y : ℚ
  z : ℚ
deriving DecidableEq, Repr

/-- Stream colorspace tags carried by frame metadata. -/
inductive Colorspace where
  | bt601
  | bt709
  | bt2020
  | unknown
deriving DecidableEq, Repr

/-- Models `AV_PIX_FMT_NV12` (libavutil). -/
def AV_PIX_FMT_NV12 : Nat := 23

/-- The single hard-coded `convert_matrix` uploaded to the `yuvmat` uniform at
specialization (eglvid.cpp lines 361-365, column-major), exactly the source
float literals as rationals. It is a BT.601 limited-range matrix; no other
matrix exists in the code. -/
def convert_matrix : List ℚ :=
  [1164/1000, 1164/1000, 1164/1000,
   0, -392/1000, 2017/1000,
   1596/1000, -813/1000, 0]

/-- The constant offset the NV12 fragment shader subtracts from the sampled
YCbCr triple (`YCbCr -= vec3(0.0627451017, 0.501960814, 0.501960814)`,
nv12.frag / part_001); the literals are 16/255 and 128/255 rounded to float. -/
def shaderOffset : Vec3 :=
  { x := 627451017/10000000000, y := 501960814/1000000000, z := 501960814/1000000000 }

/-- The offset the spec's `matrixFor` pairs with each range (spec section 4.1):
limited range subtracts (16/255, 128/255, 128/255); full range subtracts
(0, 128/255, 128/255). Stated from the spec for comparison with the code. -/
def specOffset (fullRange : Bool) : Vec3 :=
  if fullRange then { x := 0, y := 128/255, z := 128/255 }
  else { x := 16/255, y := 128/255, z := 128/255 }

/-- Decoded-frame metadata consumed by the renderer (pixel format, colorspace
tag, color range, hardware residency). -/
structure FrameMeta where
  hwFrame : Bool
  swFormat : Nat
  colorspace : Colorspace
  fullRange : Bool
deriving DecidableEq, Repr

/-- The renderer state renderFrame mutates: the remembered read-back format
(`m_SwPixelFormat`, `AV_PIX_FMT_NONE` modelled as `none`), a generation counter
for the compiled shader program, the value of the `yuvmat` uniform, and a
generation counter for the external texture objects (created at `initialize`,
eglvid.cpp lines 275-282). -/
structure EGLRendererState where
  swPixelFormat : Option Nat
  shaderGeneration : Nat
  yuvmatUniform : Option (List ℚ)
  texturesGeneration : Nat
deriving DecidableEq, Repr

/-- State after `EGLRenderer::initialize`: unspecialized, textures allocated. -/
def initEGLState : EGLRendererState :=
  { swPixelFormat := none, shaderGeneration := 0, yuvmatUniform := none,
    texturesGeneration := 1 }

/-- State effects of one `EGLRenderer::renderFrame` call (eglvid.cpp lines
327-465). On the first hardware frame (specialization, lines 332-397) the
read-back format is recorded, the shader is compiled (abort before setting the
uniform when compilation fails, lines 343-344) and the `yuvmat` uniform is set
to the fixed `convert_matrix`. Every later frame changes none of these fields:
the frame's colorspace/range metadata is never read anywhere in the function. -/
def renderFrameStep (shaderOk : Bool) (s : EGLRendererState) (f : FrameMeta) :
    EGLRendererState :=
  if f.hwFrame = false then s
  else
    match s.swPixelFormat with
    | some _ => s
    | none =>
      if shaderOk then
        { s with swPixelFormat := some f.swFormat,
                 shaderGeneration := s.shaderGeneration + 1,
                 yuvmatUniform := some convert_matrix }
      else
        { s with swPixelFormat := some f.swFormat }

/-- A sequence of renderFrame calls. -/
def runRender (shaderOk : Bool) (s : EGLRendererState) (fs : List FrameMeta) :
    EGLRendererState :=
  fs.foldl (renderFrameStep shaderOk) s

/-- The (matrix, offset) conversion pair in effect for the draw of frame `f`
from state `s`: the `yuvmat` uniform at draw time paired with the shader's
baked-in offset; `none` when the call returns without drawing (software frame,
or failed shader compilation at specialization). -/
def appliedConversion (shaderOk : Bool) (s : EGLRendererState) (f : FrameMeta) :
    Option (List ℚ × Vec3) :=
  if f.hwFrame = false then none
  else if s.swPixelFormat = none ∧ shaderOk = false then none
  else (renderFrameStep shaderOk s f).yuvmatUniform.map fun m => (m, shaderOffset)

lemma runRender_uniform_invariant (fs : List FrameMeta) :
    ∀ s : EGLRendererState,
      (s.yuvmatUniform = none ∧ s.swPixelFormat = none) ∨
        s.yuvmatUniform = some convert_matrix →
      ((runRender true s fs).yuvmatUniform = none ∧
        (runRender true s fs).swPixelFormat = none) ∨
        (runRender true s fs).yuvmatUniform = some convert_matrix := by
  induction fs with
  | nil => intro s h; exact h
  | cons f rest ih =>
    intro s h
    show ((runRender true (renderFrameStep true s f) rest).yuvmatUniform = none ∧ _) ∨ _
    apply ih
    unfold renderFrameStep
    by_cases hf : f.hwFrame = false
    · rw [if_pos hf]; exact h
    · rw [if_neg hf]
      cases hsw : s.swPixelFormat with
      | some pf => exact h
      | none =>
        right
        rfl

/-- C5 counterexample: the claim requires the full-range offset to subtract 0
in the first component, but the code's conversion for a full-range BT.601
frame still uses the limited-range shader offset (first component
0.0627451017 ≠ 0). -/
theorem matrixFor_full_range_counterexample :
    appliedConversion true initEGLState
        { hwFrame := true, swFormat := AV_PIX_FMT_NV12,
          colorspace := Colorspace.bt601, fullRange := true } =
      some (convert_matrix, shaderOffset) ∧
    shaderOffset.x ≠ (specOffset true).x := by
  refine ⟨rfl, ?_⟩
  norm_num [shaderOffset, specOffset]

/-- C5 (amended): the code's colorspace-to-matrix mapping is the constant
function — for every reachable renderer state and every hardware frame,
whatever its (colorspace, range) pair (supported, full-range or unsupported),
the applied conversion is the single BT.601 limited-range pair
(`convert_matrix`, `shaderOffset`); no per-pair selection exists. -/
theorem conversion_pair_constant (fs : List FrameMeta) (f : FrameMeta)
    (hhw : f.hwFrame = true) :
    appliedConversion true (runRender true initEGLState fs) f =
      some (convert_matrix, shaderOffset) := by
  have hinv := runRender_uniform_invariant fs initEGLState (Or.inl ⟨rfl, rfl⟩)
  unfold appliedConversion
  rw [if_neg (by simp [hhw])]
  rw [if_neg (by rintro ⟨-, h⟩; cases h)]
  unfold renderFrameStep
  rw [if_neg (by simp [hhw])]
  rcases hinv with ⟨hu, hsw⟩ | hu
  · rw [hsw]
    simp
  · cases hsw : (runRender true initEGLState fs).swPixelFormat with
    | some pf => rw [hu]; rfl
    | none => simp

/-- Witness for `conversion_pair_constant`: the very first frame, tagged with
an unsupported colorspace and full range, still gets the BT.601 limited pair. -/
theorem conversion_pair_constant_witness :
    appliedConversion true (runRender true initEGLState [])
        { hwFrame := true, swFormat := AV_PIX_FMT_NV12,
          colorspace := Colorspace.unknown, fullRange := true } =
      some (convert_matrix, shaderOffset) :=
  conversion_pair_constant []
    { hwFrame := true, swFormat := AV_PIX_FMT_NV12,
      colorspace := Colorspace.unknown, fullRange := true } rfl

/-- The renderer state after specializing on a limited-range BT.601 NV12
stream. -/
def specializedOnLimited601 : EGLRendererState :=
  renderFrameStep true initEGLState
    { hwFrame := true, swFormat := AV_PIX_FMT_NV12,
      colorspace := Colorspace.bt601, fullRange := false }

/-- C6 counterexample: after specializing on (BT.601, limited), rendering a
frame whose metadata changed to (BT.601, full) refreshes nothing — the state
(including the `yuvmat` uniform) is bit-for-bit unchanged and the applied
conversion is still the limited-range pair, which does not match the new
(colorspace, range) pair (its offset x-component should be 0 per the spec). -/
theorem matrix_uniform_not_refreshed_counterexample :
    specializedOnLimited601.yuvmatUniform = some convert_matrix ∧
    renderFrameStep true specializedOnLimited601
        { hwFrame := true, swFormat := AV_PIX_FMT_NV12,
          colorspace := Colorspace.bt601, fullRange := true } =
      specializedOnLimited601 ∧
    appliedConversion true specializedOnLimited601
        { hwFrame := true, swFormat := AV_PIX_FMT_NV12,
          colorspace := Colorspace.bt601, fullRange := true } =
      some (convert_matrix, shaderOffset) ∧
    shaderOffset.x ≠ (specOffset true).x := by
  refine ⟨rfl, rfl, rfl, ?_⟩
  norm_num [shaderOffset, specOffset]

/-- C6 (amended): once specialized, `renderFrame` never touches the conversion
matrix uniform, the compiled shader program or the texture objects again — even
when the frame's colorspace or range metadata differs from the stream format
seen at specialization, the entire renderer state is unchanged and the
specialization-time matrix remains the one applied. -/
theorem post_specialization_render_state_unchanged (shaderOk : Bool)
    (s : EGLRendererState) (f : FrameMeta) (pf : Nat)
    (hspec : s.swPixelFormat = some pf) :
    renderFrameStep shaderOk s f = s ∧
    (f.hwFrame = true →
      appliedConversion shaderOk s f =
        s.yuvmatUniform.map fun m => (m, shaderOffset)) := by
  have hstep : renderFrameStep shaderOk s f = s := by
    unfold renderFrameStep
    by_cases hf : f.hwFrame = false
    · rw [if_pos hf]
    · rw [if_neg hf, hspec]
  refine ⟨hstep, ?_⟩
  intro hhw
  unfold appliedConversion
  rw [if_neg (by simp [hhw])]
  rw [if_neg (by rintro ⟨h, -⟩; rw [hspec] at h; cases h)]
  rw [hstep]

/-- Witness for `post_specialization_render_state_unchanged` on the concrete
specialized state and a range-changed frame. -/
theorem post_specialization_render_state_unchanged_witness :
    renderFrameStep true specializedOnLimited601
        { hwFrame := true, swFormat := AV_PIX_FMT_NV12,
          colorspace := Colorspace.bt709, fullRange := true } =
      specializedOnLimited601 :=
  (post_specialization_render_state_unchanged true specializedOnLimited601
    { hwFrame := true, swFormat := AV_PIX_FMT_NV12,
      colorspace := Colorspace.bt709, fullRange := true }
    AV_PIX_FMT_NV12 rfl).1

/-! ### Absolute mouse scaling and touch handling (input.cpp
`handleMouseMotionEvent` lines 658-695, `handleTouchFingerEvent` lines
1222-1314) -/

/-- An `SDL_Rect`. -/
structure SDLRect where
  x : Int
  y : Int
  w : Int
  h : Int
deriving DecidableEq, Repr

/-- Modelled from the spec: `StreamUtils::scaleSourceToDestinationSurface` is
not under src/ (only its callers are). Per the spec, window coordinates are
rescaled into stream-video coordinates "accounting for letterbox/pillarbox
scaling": the destination rect is shrunk to the largest sub-rectangle with the
source's aspect ratio, centred in the window (the black bars split evenly),
using C integer division (all quantities involved are nonnegative). -/
def scaleSourceToDestinationSurface (src dst : SDLRect) : SDLRect :=
  if dst.w * src.h / src.w > dst.h then
    { x := dst.x + (dst.w - dst.h * src.w / src.h) / 2, y := dst.y,
      w := dst.h * src.w / src.h, h := dst.h }
  else
    { x := dst.x, y := dst.y + (dst.h - dst.w * src.h / src.w) / 2,
      w := dst.w, h := dst.w * src.h / src.w }

/-- Models `SdlInputHandler::handleMouseMotionEvent` (input.cpp lines 658-695),
protocol output. In absolute mode the event position is clamped to the video
region computed from the stream and window sizes and sent with the region size
as reference viewport; in relative mode the deltas only feed the atomic
accumulators (flushed later by the polling timer), so no event is emitted
here. Synthetic touch events are filtered by the caller path. -/
def handleMouseMotionEvent (captureActive absoluteMouseMode : Bool)
    (streamW streamH winW winH ex ey : Int) : List OutEvent :=
  if captureActive = false then []
  else if absoluteMouseMode then
    let src : SDLRect := { x := 0, y := 0, w := streamW, h := streamH }
    let dst := scaleSourceToDestinationSurface src { x := 0, y := 0, w := winW, h := winH }
    [OutEvent.mousePosition (min (max (ex - dst.x) 0) dst.w)
                            (min (max (ey - dst.y) 0) dst.h) dst.w dst.h]
  else []

/-- C9: in absolute pointer mode with capture active, motion events are
rescaled into the letterbox-aware video region and clamped to it; for a
1920×1080 stream in a 960×540 window (no letterboxing), window coordinate
(480, 270) maps to position (480, 270) against reference viewport (960, 540) —
the exact stream midpoint. -/
theorem absolute_mouse_scaling :
    handleMouseMotionEvent true true 1920 1080 960 540 480 270 =
      [OutEvent.mousePosition 480 270 960 540] ∧
    ∀ sw sh ww wh ex ey : Int, 0 < sw → 0 < sh → 0 ≤ ww → 0 ≤ wh →
      ∀ px py vw vh : Int,
        handleMouseMotionEvent true true sw sh ww wh ex ey =
          [OutEvent.mousePosition px py vw vh] →
        0 ≤ px ∧ px ≤ vw ∧ 0 ≤ py ∧ py ≤ vh ∧ 0 ≤ vw ∧ 0 ≤ vh := by
  refine ⟨by decide, ?_⟩
  intro sw sh ww wh ex ey hsw hsh hww hwh px py vw vh heq
  unfold handleMouseMotionEvent at heq
  rw [if_neg (by decide), if_pos (by decide)] at heq
  rw [List.cons.injEq] at heq
  obtain ⟨hev, -⟩ := heq
  rw [OutEvent.mousePosition.injEq] at hev
  obtain ⟨hpx, hpy, hvw, hvh⟩ := hev
  set dst := scaleSourceToDestinationSurface
    { x := 0, y := 0, w := sw, h := sh } { x := 0, y := 0, w := ww, h := wh } with hdst
  have hw0 : 0 ≤ dst.w := by
    rw [hdst]
    unfold scaleSourceToDestinationSurface
    split
    · exact Int.ediv_nonneg (mul_nonneg hwh (le_of_lt hsw)) (le_of_lt hsh)
    · exact hww
  have hh0 : 0 ≤ dst.h := by
    rw [hdst]
    unfold scaleSourceToDestinationSurface
    split
    · exact hwh
    · exact Int.ediv_nonneg (mul_nonneg hww (le_of_lt hsh)) (le_of_lt hsw)
  subst hpx hpy hvw hvh
  refine ⟨?_, ?_, ?_, ?_, hw0, hh0⟩
  · exact le_min (le_max_right _ _) hw0
  · exact min_le_right _ _
  · exact le_min (le_max_right _ _) hh0
  · exact min_le_right _ _

/-- Witness for `absolute_mouse_scaling`: the clamp bounds hold at the
concrete 1920×1080-stream / 960×540-window midpoint event. -/
theorem absolute_mouse_scaling_witness :
    0 ≤ (480 : Int) ∧ (480 : Int) ≤ 960 ∧ 0 ≤ (270 : Int) ∧
      (270 : Int) ≤ 540 ∧ 0 ≤ (960 : Int) ∧ 0 ≤ (540 : Int) :=
  absolute_mouse_scaling.2 1920 1080 960 540 480 270
    (by norm_num) (by norm_num) (by norm_num) (by norm_num)
    480 270 960 540 (by decide)

/-- Models `LONG_PRESS_ACTIVATION_DELTA` (input.cpp line 29), normalized coordinates. -/
def LONG_PRESS_ACTIVATION_DELTA : ℚ := 1/100

/-- Models `DOUBLE_TAP_DEAD_ZONE_DELAY` (input.cpp line 32), milliseconds. -/
def DOUBLE_TAP_DEAD_ZONE_DELAY : Nat := 250

/-- Models `DOUBLE_TAP_DEAD_ZONE_DELTA` (input.cpp line 35), normalized coordinates. -/
def DOUBLE_TAP_DEAD_ZONE_DELTA : ℚ := 25/1000

/-- The last finger-down / finger-up snapshot kept by the handler
(`m_LastTouchDownEvent` / `m_LastTouchUpEvent`): normalized position,
timestamp, finger id. -/
structure TouchSnapshot where
  x : ℚ
  y : ℚ
  timestamp : Nat
  fingerId : Nat
deriving DecidableEq, Repr

/-- Touch-gesture state of the handler. `longPressTimerActive` models
`m_LongPressTimer != 0`. -/
structure TouchState where
  lastTouchDown : TouchSnapshot
  lastTouchUp : TouchSnapshot
  longPressTimerActive : Bool
deriving DecidableEq, Repr

/-- Models `qSqrt(qPow(ax-bx, 2) + qPow(ay-by, 2)) > d` for a nonnegative threshold
`d`, modelled square-free: both sides squared (the source compares Euclidean
distance against the constant thresholds 0.01 / 0.025). -/
def distGT (ax ay bx by' d : ℚ) : Prop :=
  (ax - bx) ^ 2 + (ay - by') ^ 2 > d ^ 2

instance (ax ay bx by' d : ℚ) : Decidable (distGT ax ay bx by' d) := by
  unfold distGT
  infer_instance

/-- Models `SDL_TouchFingerEvent` types. -/
inductive TouchEventType where
  | fingerDown
  | fingerUp
  | fingerMotion
deriving DecidableEq, Repr

/-- Truncation of the C cast `(int)(float)` toward zero. -/
def cTruncToInt (q : ℚ) : Int :=
  if 0 ≤ q then ⌊q⌋ else -⌊-q⌋

/-- Models `SdlInputHandler::handleTouchFingerEvent` (input.cpp lines 1222-1314) for a
touchscreen event. Multi-finger downs and non-primary move/up events are
ignored (lines 1246-1252). Excessive movement since the last touch down cancels
the long-press timer (lines 1271-1275). A finger-down within the double-tap
deadzone of the last finger-up (at most `DOUBLE_TAP_DEAD_ZONE_DELAY` ms later
and within `DOUBLE_TAP_DEAD_ZONE_DELTA` distance) skips the position event
(lines 1277-1287); otherwise the position, scaled into the video region and
clamped to it, is sent. Finger down records the snapshot, restarts the
long-press timer and presses the left button; finger up records its snapshot,
cancels the timer and releases both left and right buttons (lines 1289-1313).
Timestamps are `Uint32` ms; the subtraction is modelled on `Nat` (events are
handled in order, so the later timestamp is the larger). -/
def handleTouchFingerEvent (streamW streamH winW winH : Int) (s : TouchState)
    (ty : TouchEventType) (fingerId : Nat) (x y : ℚ) (timestamp : Nat)
    (numFingers : Nat) : TouchState × List OutEvent :=
  if ty = TouchEventType.fingerDown ∧ numFingers > 1 then (s, [])
  else if ty ≠ TouchEventType.fingerDown ∧ fingerId ≠ s.lastTouchDown.fingerId then
    (s, [])
  else
    let dst := scaleSourceToDestinationSurface
      { x := 0, y := 0, w := streamW, h := streamH }
      { x := 0, y := 0, w := winW, h := winH }
    let s1 := if distGT x y s.lastTouchDown.x s.lastTouchDown.y
                 LONG_PRESS_ACTIVATION_DELTA
              then { s with longPressTimerActive := false } else s
    let posEvents :=
      if ty ≠ TouchEventType.fingerDown ∨
         timestamp - s.lastTouchUp.timestamp > DOUBLE_TAP_DEAD_ZONE_DELAY ∨
         distGT x y s.lastTouchUp.x s.lastTouchUp.y DOUBLE_TAP_DEAD_ZONE_DELTA then
        [OutEvent.mousePosition
          (min (max (cTruncToInt (x * winW)) dst.x) (dst.x + dst.w) - dst.x)
          (min (max (cTruncToInt (y * winH)) dst.y) (dst.y + dst.h) - dst.y)
          dst.w dst.h]
      else []
    match ty with
    | TouchEventType.fingerDown =>
      ({ s1 with lastTouchDown := { x := x, y := y, timestamp := timestamp,
                                    fingerId := fingerId },
                 longPressTimerActive := true },
       posEvents ++ [OutEvent.mouseButton true BUTTON_LEFT])
    | TouchEventType.fingerUp =>
      ({ s1 with lastTouchUp := { x := x, y := y, timestamp := timestamp,
                                  fingerId := fingerId },
                 longPressTimerActive := false },
       posEvents ++ [OutEvent.mouseButton false BUTTON_LEFT,
                     OutEvent.mouseButton false BUTTON_RIGHT])
    | TouchEventType.fingerMotion => (s1, posEvents)

/-- C8: a primary finger-down at (x0+ε, y0) at time t0+Δ, following a finger-up
at (x0, y0, t0), with Δ at most the deadzone delay and ε below the deadzone
distance, emits no position event — only the left-button press. -/
theorem double_tap_deadzone_suppresses_position
    (streamW streamH winW winH : Int) (s : TouchState)
    (x0 y0 : ℚ) (t0 dt : Nat) (eps : ℚ) (fd : Nat)
    (hup : s.lastTouchUp = { x := x0, y := y0, timestamp := t0, fingerId := fd })
    (hdt : dt ≤ DOUBLE_TAP_DEAD_ZONE_DELAY)
    (heps0 : 0 ≤ eps) (heps : eps < DOUBLE_TAP_DEAD_ZONE_DELTA) :
    ∀ fd2, (handleTouchFingerEvent streamW streamH winW winH s
        TouchEventType.fingerDown fd2 (x0 + eps) y0 (t0 + dt) 1).2 =
      [OutEvent.mouseButton true BUTTON_LEFT] := by
  intro fd2
  unfold handleTouchFingerEvent
  rw [if_neg (by simp)]
  rw [if_neg (by simp)]
  have hdelay : ¬(t0 + dt - s.lastTouchUp.timestamp > DOUBLE_TAP_DEAD_ZONE_DELAY) := by
    rw [hup]
    simp only
    omega
  have hdist : ¬distGT (x0 + eps) y0 s.lastTouchUp.x s.lastTouchUp.y
      DOUBLE_TAP_DEAD_ZONE_DELTA := by
    rw [hup]
    unfold distGT
    simp only [not_lt]
    have h1 : x0 + eps - x0 = eps := by ring
    rw [h1]
    have h2 : (y0 - y0) ^ 2 = 0 := by ring
    rw [h2]
    have h3 : eps ^ 2 ≤ DOUBLE_TAP_DEAD_ZONE_DELTA ^ 2 := by
      apply pow_le_pow_left₀ heps0 (le_of_lt heps)
    linarith
  have hcond : ¬(TouchEventType.fingerDown ≠ TouchEventType.fingerDown ∨
      t0 + dt - s.lastTouchUp.timestamp > DOUBLE_TAP_DEAD_ZONE_DELAY ∨
      distGT (x0 + eps) y0 s.lastTouchUp.x s.lastTouchUp.y
        DOUBLE_TAP_DEAD_ZONE_DELTA) := by
    rintro (h | h | h)
    · exact h rfl
    · exact hdelay h
    · exact hdist h
  simp only [if_neg hcond]
  simp

/-- Witness for `double_tap_deadzone_suppresses_position`: a second tap 100 ms
later and 0.01 to the right of the first emits only the left press. -/
theorem double_tap_deadzone_suppresses_position_witness :
    (handleTouchFingerEvent 1920 1080 960 540
        { lastTouchDown := { x := 1/2, y := 1/2, timestamp := 900, fingerId := 3 },
          lastTouchUp := { x := 1/2, y := 1/2, timestamp := 1000, fingerId := 3 },
          longPressTimerActive := false }
        TouchEventType.fingerDown 3 (1/2 + 1/100) (1/2) 1100 1).2 =
      [OutEvent.mouseButton true BUTTON_LEFT] :=
  double_tap_deadzone_suppresses_position 1920 1080 960 540 _
    (1/2) (1/2) 1000 100 (1/100) 3 rfl (by norm_num [DOUBLE_TAP_DEAD_ZONE_DELAY])
    (by norm_num) (by norm_num [DOUBLE_TAP_DEAD_ZONE_DELTA]) 3

end Moonlight
